import Mathlib

/-!
Verification of the safe-mutation subsystem of the `add-nest-auth` code
generator (NestJS auth scaffolding CLI).

The development shallowly embeds the pure decision logic of:
  - `src/installer/ast-updater.ts`   (`AppModuleUpdater`)
  - `src/installer/main-ts-updater.ts` (`MainTsUpdater`)
  - `src/generator/file-writer.ts`   (`FileWriter`)
  - `src/generator/generator.ts`     (`Generator.generate`)
  - `src/gui/orchestrator.ts`        (`GuiOrchestrator.generate`)

Filesystem effects (fs-extra calls) are modelled by an explicit state
(`Fs`) holding a path-to-content association list plus a log of the
mutating operations performed.  The ts-morph parsing layer is modelled
at the level the code actually manipulates it: lists of import
declarations, lists of decorator-array element texts and lists of
bootstrap-body statement texts.
-/

/-! ## String utilities mirroring the JavaScript operations used -/

/-- Character class of the JavaScript regex `\w`: ASCII letters, ASCII
digits and underscore. -/
def isWordChar (c : Char) : Bool :=
  c.isAlpha || c.isDigit || c == '_'

/-- True when the second list is a prefix of the first (character
lists): `hasPrefixChars hay needle`. -/
def hasPrefixChars : List Char → List Char → Bool
  | _, [] => true
  | [], _ :: _ => false
  | a :: as, b :: bs => a == b && hasPrefixChars as bs

/-- True when the needle occurs contiguously somewhere inside the hay,
like JavaScript `hay.includes(needle)`. -/
def containsChars (needle : List Char) : List Char → Bool
  | [] => needle.isEmpty
  | c :: rest => hasPrefixChars (c :: rest) needle || containsChars needle rest

/-- JavaScript `s.includes(sub)`. -/
def stringIncludes (s sub : String) : Bool :=
  containsChars sub.data s.data

/-- The regex capture `text.match(/^(\w+)/)` used by
`getExistingModuleNames` in `ast-updater.ts`: the maximal leading run of
word characters, `none` when the text does not start with a word
character. -/
def leadingIdent (text : String) : Option String :=
  let run := text.data.takeWhile isWordChar
  if run.isEmpty then none else some (String.mk run)

/-! ## Decorator Config Array Editor (`AppModuleUpdater.addModulesToDecorator`)

The editor works on the element texts of the `imports` array of the
`@Module({...})` decorator argument.  `getExistingModuleNames` collects
the leading identifier of every existing element into a set; each fixed
candidate entry is then appended only when its (hard-coded) module name
is not in that set; finally the array initializer is rewritten from the
resulting element list.  We embed the element-list computation. -/

/-- Model of `AppModuleUpdater.getExistingModuleNames`: the set (here: list, used
only through membership) of leading identifiers of the existing array
element texts.  Elements with no leading word character contribute
nothing, exactly as a failed regex match does. -/
def getExistingModuleNames (elements : List String) : List String :=
  elements.filterMap leadingIdent

/-- The candidate-appending loop of `addModulesToDecorator`: starting
from the existing element texts, each `(name, text)` candidate is
appended iff `name` is not among the existing module names, which are
computed once, up front, from the original array (exactly as the code
computes `existingModules` before any push). -/
def mergeModuleElements (existing : List String) (candidates : List (String × String)) : List String :=
  let existingModules := getExistingModuleNames existing
  candidates.foldl
    (fun allElements cand =>
      if existingModules.contains cand.1 then allElements else allElements ++ [cand.2])
    existing

/-- The feature flags of `AuthConfig` consulted by the updaters. -/
structure AuthFeatures where
  refreshTokens : Bool
deriving DecidableEq

/-- The `AuthConfig` fields consulted by `addModulesToDecorator`. -/
structure AuthConfig where
  orm : String
  database : String
  features : AuthFeatures
deriving DecidableEq

/-- Model of `AppModuleUpdater.buildTypeOrmConfig`: the `TypeOrmModule.forRoot`
source text for the given database kind and entities list text. -/
def buildTypeOrmConfig (database : String) (entities : String) : String :=
  if database == "sqlite" then
    "TypeOrmModule.forRoot(\x7b\n      type: \x27sqlite\x27,\n      database: \x27database.sqlite\x27,\n      entities: " ++ entities ++ ",\n      synchronize: true, // WARNING: disable in production!\n    \x7d)"
  else if database == "mysql" then
    "TypeOrmModule.forRoot(\x7b\n      type: \x27mysql\x27,\n      host: process.env.DATABASE_HOST || \x27localhost\x27,\n      port: parseInt(process.env.DATABASE_PORT || \x273306\x27),\n      username: process.env.DATABASE_USER || \x27root\x27,\n      password: process.env.DATABASE_PASSWORD || \x27\x27,\n      database: process.env.DATABASE_NAME || \x27auth_db\x27,\n      entities: " ++ entities ++ ",\n      synchronize: true, // WARNING: disable in production!\n    \x7d)"
  else
    "TypeOrmModule.forRoot(\x7b\n      type: \x27postgres\x27,\n      host: process.env.DATABASE_HOST || \x27localhost\x27,\n      port: parseInt(process.env.DATABASE_PORT || \x275432\x27),\n      username: process.env.DATABASE_USER || \x27postgres\x27,\n      password: process.env.DATABASE_PASSWORD || \x27postgres\x27,\n      database: process.env.DATABASE_NAME || \x27auth_db\x27,\n      entities: " ++ entities ++ ",\n      synchronize: true, // WARNING: disable in production!\n    \x7d)"

/-- The fixed candidate entries pushed by `addModulesToDecorator`, in
program order, as (guarding module name, appended element text) pairs.
The guard names are the hard-coded strings of the
`existingModules.has(...)` checks. -/
def moduleCandidates (config : Option AuthConfig) : List (String × String) :=
  [("ConfigModule", "ConfigModule.forRoot(\x7b isGlobal: true \x7d)")]
    ++ (match config with
        | some c =>
          if c.orm == "typeorm" then
            [("TypeOrmModule",
              buildTypeOrmConfig c.database
                (if c.features.refreshTokens then "[User, RefreshToken]" else "[User]"))]
          else if c.orm == "prisma" then
            [("PrismaModule", "PrismaModule")]
          else []
        | none => [])
    ++ [("AuthModule", "AuthModule"), ("UsersModule", "UsersModule")]

/-- Model of `AppModuleUpdater.addModulesToDecorator`, at the level of the
`imports` array element texts: the existing elements followed by the
not-yet-present candidates. -/
def addModulesToDecorator (config : Option AuthConfig) (existing : List String) : List String :=
  mergeModuleElements existing (moduleCandidates config)

/-! ## Import Section Editor (`addImport`, shared by both updaters) -/

/-- One import declaration of the import section: module specifier plus
the named bindings it imports. -/
structure ImportDecl where
  moduleSpecifier : String
  namedImports : List String
deriving DecidableEq

/-- Model of `AppModuleUpdater.addImport` / `MainTsUpdater.addImport` (both
classes carry the identical method): find the first import declaration
with the given module specifier; if found, append exactly the names it
does not yet bind (and only touch it when there is at least one);
otherwise append a fresh declaration importing exactly `names` at the
end of the import section. -/
def addImport : List ImportDecl → String → List String → List ImportDecl
  | [], moduleSpecifier, names => [⟨moduleSpecifier, names⟩]
  | d :: rest, moduleSpecifier, names =>
    if d.moduleSpecifier == moduleSpecifier then
      let missingImports := names.filter (fun n => !(d.namedImports.contains n))
      if missingImports.length > 0 then
        ⟨d.moduleSpecifier, d.namedImports ++ missingImports⟩ :: rest
      else d :: rest
    else d :: addImport rest moduleSpecifier names

/-! ## Filesystem model

The fs-extra effects are modelled by an association list from path to
file content plus a log of the mutating operations performed, so that
"nothing was written" is visible in the state itself.  Directories are
not tracked: `fs.ensureDir` only creates directories and no modelled
behaviour depends on them. -/

/-- One mutating filesystem operation. -/
inductive FsOp where
  | write (path content : String)
  | copy (src dst : String)
  | remove (path : String)
deriving DecidableEq

/-- Filesystem state: current file contents plus the mutation log. -/
structure Fs where
  files : List (String × String)
  log : List FsOp
deriving DecidableEq

/-- Replace the binding of a key in an association list, or append it at
the end when absent. -/
def setEntry : List (String × String) → String → String → List (String × String)
  | [], p, c => [(p, c)]
  | e :: rest, p, c => if e.1 == p then (p, c) :: rest else e :: setEntry rest p c

/-- Content of a file, `none` when the path does not exist. -/
def fsGet (fs : Fs) (p : String) : Option String :=
  (fs.files.find? (fun e => e.1 == p)).map (fun e => e.2)

/-- Model of `fs.pathExists`. -/
def fsPathExists (fs : Fs) (p : String) : Bool :=
  (fsGet fs p).isSome

/-- Model of `fs.writeFile`. -/
def fsWrite (fs : Fs) (p c : String) : Fs :=
  ⟨setEntry fs.files p c, fs.log ++ [FsOp.write p c]⟩

/-- Model of `fs.remove`. -/
def fsRemove (fs : Fs) (p : String) : Fs :=
  ⟨fs.files.filter (fun e => !(e.1 == p)), fs.log ++ [FsOp.remove p]⟩

/-- Model of `fs.copy src dst` with overwrite.  fs-extra throws when the
source is missing; every modelled call site either guards the copy with
`pathExists` or handles the missing-source case explicitly, so the
`none` branch here is never reached by the modelled flows. -/
def fsCopy (fs : Fs) (src dst : String) : Fs :=
  match fsGet fs src with
  | some c => ⟨setEntry fs.files dst c, fs.log ++ [FsOp.copy src dst]⟩
  | none => fs

/-! ## Conflict-Checked Writer (`FileWriter`, src/generator/file-writer.ts)

The class holds `writtenFiles : string[]` and `backups : Map<string,
string>` (insertion-ordered, modelled as an association list).  It
declares the methods `writeFile`, `createBackup` (private), `rollback`,
`cleanupBackups` and `getWrittenFiles` — and no others. -/

/-- Mutable state of a `FileWriter` instance. -/
structure FileWriterState where
  writtenFiles : List String
  backups : List (String × String)
deriving DecidableEq

/-- A fresh `FileWriter` (both fields empty). -/
def FileWriter.initial : FileWriterState := ⟨[], []⟩

/-- Options of `FileWriter.writeFile`; the source defaults are
`overwrite = false`, `backup = true`. -/
structure WriteOptions where
  overwrite : Bool := false
  backup : Bool := true
deriving DecidableEq

/-- Model of the private `FileWriter.createBackup`: copy the file to its
`.backup` sidecar and record the pair in the backups map. -/
def FileWriter.createBackup (fs : Fs) (st : FileWriterState) (filePath : String) :
    Fs × FileWriterState :=
  let backupPath := filePath ++ ".backup"
  (fsCopy fs filePath backupPath,
   ⟨st.writtenFiles, setEntry st.backups filePath backupPath⟩)

/-- Model of `FileWriter.writeFile`.  The third component is the thrown
error: `some msg` models `throw new Error(msg)`, in which case the
returned `Fs` and writer state are the ones at the moment of the throw
(the conflict check runs before any filesystem effect). -/
def FileWriter.writeFile (fs : Fs) (st : FileWriterState) (filePath content : String)
    (options : WriteOptions) : Fs × FileWriterState × Option String :=
  let ex := fsPathExists fs filePath
  if ex && !options.overwrite then
    (fs, st, some ("File already exists: " ++ filePath))
  else
    let (fs1, st1) :=
      if ex && options.backup then FileWriter.createBackup fs st filePath else (fs, st)
    let fs2 := fsWrite fs1 filePath content
    (fs2, ⟨st1.writtenFiles ++ [filePath], st1.backups⟩, none)

/-- One step of the backup-restoring loop of `FileWriter.rollback`. -/
def restoreBackupEntry (fs : Fs) (entry : String × String) : Fs :=
  if fsPathExists fs entry.2 then fsRemove (fsCopy fs entry.2 entry.1) entry.2 else fs

/-- One step of the new-file-removing loop of `FileWriter.rollback`:
remove the written path when it has no backup record and still exists. -/
def removeWrittenEntry (backups : List (String × String)) (fs : Fs) (p : String) : Fs :=
  if !(backups.any (fun e => e.1 == p)) && fsPathExists fs p then fsRemove fs p else fs

/-- Model of `FileWriter.rollback`: restore every backup (in insertion
order), then delete every written file that has no backup record, then
clear both lists. -/
def FileWriter.rollback (fs : Fs) (st : FileWriterState) : Fs × FileWriterState :=
  let fs1 := st.backups.foldl restoreBackupEntry fs
  let fs2 := st.writtenFiles.foldl (removeWrittenEntry st.backups) fs1
  (fs2, ⟨[], []⟩)

/-- Model of `FileWriter.cleanupBackups`: delete every backup sidecar
that still exists and clear the backups map, keeping the written files. -/
def FileWriter.cleanupBackups (fs : Fs) (st : FileWriterState) : Fs × FileWriterState :=
  let fs1 := st.backups.foldl
    (fun f e => if fsPathExists f e.2 then fsRemove f e.2 else f) fs
  (fs1, ⟨st.writtenFiles, []⟩)

/-- Model of `FileWriter.getWrittenFiles`. -/
def FileWriter.getWrittenFiles (st : FileWriterState) : List String :=
  st.writtenFiles

/-! ## Mutation Orchestration of the two AST updaters

Both `AppModuleUpdater.update` and `MainTsUpdater.update` follow the
same shape: copy the target to its `.backup` sidecar, load the file into
ts-morph, mutate the in-memory tree, save; on any throw, restore the
backup over the original, delete the sidecar, and rethrow.  The ts-morph
load/mutate/format pipeline touches disk only at `save()`, so it is
modelled as a pure function from the file content to `Option String`
(`none` models a throw anywhere between load and save). -/

/-- Model of the private `restoreBackup` of both updaters: when the
backup sidecar exists, copy it back over the original with overwrite and
delete the sidecar. -/
def restoreBackup (fs : Fs) (origPath backupPath : String) : Fs :=
  if fsPathExists fs backupPath then
    fsRemove (fsCopy fs backupPath origPath) backupPath
  else fs

/-- Model of `AppModuleUpdater.update`: the second component is the
rethrown error, `none` on success.  When the target is missing,
`createBackup` itself throws (fs-extra `copy` with a missing source)
before the try block, so no restore runs and the filesystem is
untouched. -/
def AppModuleUpdater.update (fs : Fs) (appModulePath : String)
    (mutate : String → Option String) : Fs × Option String :=
  match fsGet fs appModulePath with
  | none => (fs, some "createBackup failed: source file not found")
  | some content =>
    let backupPath := appModulePath ++ ".backup"
    let fs1 := fsCopy fs appModulePath backupPath
    match mutate content with
    | some newContent => (fsWrite fs1 appModulePath newContent, none)
    | none => (restoreBackup fs1 appModulePath backupPath, some "mutation failed")

/-- Model of `MainTsUpdater.update`: identical to the app-module updater
apart from the explicit existence check that throws before any backup is
taken. -/
def MainTsUpdater.update (fs : Fs) (mainTsPath : String)
    (mutate : String → Option String) : Fs × Option String :=
  if !(fsPathExists fs mainTsPath) then
    (fs, some ("main.ts not found at " ++ mainTsPath))
  else
    AppModuleUpdater.update fs mainTsPath mutate

/-! ## Bootstrap Body Injector (`MainTsUpdater.addGlobalGuardsAndPipes`)

The method reads the bootstrap function body twice: its full source text
(for the textual idempotency check) and its top-level statement list
(for the anchor scan and insertion).  The model takes both as arguments;
in the program they come from the same `body` node. -/

/-- The fixed statement block inserted into the bootstrap body
(the `codeToInsert` lines joined with newlines). -/
def codeToInsert : String :=
  String.intercalate "\n"
    [ "",
      "// Enable global validation pipe",
      "app.useGlobalPipes(",
      "  new ValidationPipe(\x7b",
      "    whitelist: true,",
      "    forbidNonWhitelisted: true,",
      "    transform: true,",
      "  \x7d),",
      ");",
      "",
      "// Enable global JWT guard (all routes protected by default)",
      "// Use @Public() decorator on routes that should be accessible without auth",
      "const reflector = app.get(Reflector);",
      "app.useGlobalGuards(new JwtAuthGuard(reflector));",
      "" ]

/-- The anchor predicate of the listen-statement scan:
`text.includes('.listen(') || text.includes('.listen (')`. -/
def isListenStatement (text : String) : Bool :=
  stringIncludes text ".listen(" || stringIncludes text ".listen ("

/-- The index the statement loop produces: position of the first
statement matching the anchor predicate, or the statement count when
none matches (the `listenIndex === -1` fallback). -/
def listenInsertIndex (statements : List String) : Nat :=
  statements.findIdx isListenStatement

/-- ts-morph `body.insertStatements index text`: the block becomes a new
element at the given position. -/
def insertStatements (statements : List String) (index : Nat) (block : String) : List String :=
  statements.take index ++ [block] ++ statements.drop index

/-- Model of `MainTsUpdater.addGlobalGuardsAndPipes` at the level of the
bootstrap body: if the body source text already contains
`useGlobalGuards` or `JwtAuthGuard`, return the statements unchanged;
otherwise insert the fixed block before the first anchor statement, or
at the end when no statement matches the anchor. -/
def addGlobalGuardsAndPipes (bodyText : String) (statements : List String) : List String :=
  if stringIncludes bodyText "useGlobalGuards" || stringIncludes bodyText "JwtAuthGuard" then
    statements
  else
    insertStatements statements (listenInsertIndex statements) codeToInsert

/-! ## Generator (`Generator.generate`, src/generator/generator.ts)

The generation loop renders each planned file and hands it to
`FileWriter.writeFile`; template rendering and the per-file inclusion
predicates happen before any write, so the model takes the plan as the
already-rendered list of (output path, content) pairs.  After the loop
the code reads `this.fileWriter.getWrittenFiles()` and then calls
`this.fileWriter.getSkippedFiles()`. -/

/-- The member access `this.fileWriter.getSkippedFiles` of
`generator.ts` line 67.  The `FileWriter` class declares no such method
(and no skipped list), so in JavaScript the access yields `undefined`
and the call throws a `TypeError`, which the surrounding try/catch of
`Generator.generate` catches.  The absent member is modelled as `none`. -/
def fileWriterGetSkippedFiles : Option (List String) := none

/-- Result record of `Generator.generate`. -/
structure GenerationResult where
  filesCreated : List String
  filesSkipped : List String
  success : Bool
  error : Option String
deriving DecidableEq

/-- The write loop and result assembly of `Generator.generate`: on any
writer throw, roll back and report failure; after the loop, read the
written list, then call the non-existent `getSkippedFiles`, whose
`TypeError` is caught by the same handler, rolling back and reporting
failure too. -/
def generateGo (overwrite : Bool) (fs : Fs) (st : FileWriterState) :
    List (String × String) → Fs × GenerationResult
  | [] =>
    let filesCreated := FileWriter.getWrittenFiles st
    match fileWriterGetSkippedFiles with
    | some filesSkipped =>
      let (fs1, _) := FileWriter.cleanupBackups fs st
      (fs1, ⟨filesCreated, filesSkipped, true, none⟩)
    | none =>
      let (fs1, _) := FileWriter.rollback fs st
      (fs1, ⟨[], [], false, some "this.fileWriter.getSkippedFiles is not a function"⟩)
  | (outputPath, content) :: rest =>
    match FileWriter.writeFile fs st outputPath content ⟨overwrite, true⟩ with
    | (fs1, st1, none) => generateGo overwrite fs1 st1 rest
    | (fs1, st1, some err) =>
      let (fs2, _) := FileWriter.rollback fs1 st1
      (fs2, ⟨[], [], false, some err⟩)

/-- Model of `Generator.generate` on a rendered plan, starting from a
fresh `FileWriter`. -/
def Generator.generate (fs : Fs) (plan : List (String × String)) (overwrite : Bool) :
    Fs × GenerationResult :=
  generateGo overwrite fs FileWriter.initial plan

/-! ## GUI pipeline (`GuiOrchestrator.generate`, src/gui/orchestrator.ts)

The orchestrator sequences: file generation, app.module.ts update,
main.ts update, package.json update and (optionally) dependency
installation.  Each downstream step performs its own internal
backup/restore; the orchestrator only decides abort-versus-warn, so the
steps are modelled as functions from filesystem state to new state plus
the thrown error message (`none` = step succeeded).  The fixed warning
strings are the ones pushed by the source. -/

/-- Result record of `GuiOrchestrator.generate`. -/
structure GuiGenerateResult where
  success : Bool
  filesCreated : List String
  filesSkipped : List String
  errors : List String
  warnings : List String
deriving DecidableEq

/-- The warning pushed when the main.ts update step throws. -/
def mainTsWarning : String :=
  "Could not auto-update main.ts - see main.ts.example for manual setup"

/-- The warning pushed when dependency installation throws. -/
def installWarning : String :=
  "Failed to install dependencies - run npm install manually"

/-- Model of `GuiOrchestrator.generate`: generation failure aborts with
its error; an app.module.ts or package.json failure aborts with that
error message; a main.ts or dependency-installation failure only pushes
its fixed warning and the pipeline continues to a `success := true`
result.  No step's filesystem effects are ever undone by the
orchestrator itself. -/
def GuiOrchestrator.generate (fs : Fs)
    (genStep : Fs → Fs × GenerationResult)
    (appModuleStep mainTsStep packageStep installStep : Fs → Fs × Option String)
    (autoInstall : Bool) : Fs × GuiGenerateResult :=
  let (fs1, result) := genStep fs
  if result.success = false then
    (fs1, ⟨false, [], [], [result.error.getD "Unknown error"], []⟩)
  else
    let (fs2, appErr) := appModuleStep fs1
    match appErr with
    | some msg => (fs2, ⟨false, result.filesCreated, result.filesSkipped, [msg], []⟩)
    | none =>
      let (fs3, mainErr) := mainTsStep fs2
      let warnings1 : List String :=
        match mainErr with
        | some _ => [mainTsWarning]
        | none => []
      let (fs4, pkgErr) := packageStep fs3
      match pkgErr with
      | some msg => (fs4, ⟨false, result.filesCreated, result.filesSkipped, [msg], warnings1⟩)
      | none =>
        let (fs5, instErr) := if autoInstall then installStep fs4 else (fs4, none)
        let warnings2 : List String :=
          match instErr with
          | some _ => warnings1 ++ [installWarning]
          | none => warnings1
        (fs5, ⟨true, result.filesCreated, result.filesSkipped, [], warnings2⟩)

/-! ## Association-list and filesystem lemmas -/

theorem find_setEntry_self (l : List (String × String)) (p c : String) :
    (setEntry l p c).find? (fun e => e.1 == p) = some (p, c) := by
  induction l with
  | nil => simp [setEntry]
  | cons e rest ih =>
    by_cases h : e.1 = p
    · simp [setEntry, h]
    · simp [setEntry, h, List.find?, ih]

theorem find_setEntry_ne (l : List (String × String)) (p c q : String) (h : q ≠ p) :
    (setEntry l p c).find? (fun e => e.1 == q) = l.find? (fun e => e.1 == q) := by
  have hpq : (p == q) = false := beq_false_of_ne (Ne.symm h)
  induction l with
  | nil => simp [setEntry, List.find?, hpq]
  | cons e rest ih =>
    by_cases he : e.1 = p
    · simp [setEntry, he, List.find?, hpq]
    · by_cases heq : e.1 = q
      · simp [setEntry, he, List.find?, heq, h]
      · have hb : (e.1 == q) = false := beq_false_of_ne heq
        simpa [setEntry, he, List.find?, hb] using ih

theorem find_filterOut_self (l : List (String × String)) (p : String) :
    (l.filter (fun e => !(e.1 == p))).find? (fun e => e.1 == p) = none := by
  induction l with
  | nil => simp
  | cons e rest ih =>
    by_cases h : e.1 = p
    · simp [List.filter_cons, h, ih]
    · simp [List.filter_cons, h, List.find?, ih]

theorem find_filterOut_ne (l : List (String × String)) (p q : String) (h : q ≠ p) :
    (l.filter (fun e => !(e.1 == p))).find? (fun e => e.1 == q) =
      l.find? (fun e => e.1 == q) := by
  induction l with
  | nil => simp
  | cons e rest ih =>
    by_cases he : e.1 = p
    · have heq : e.1 ≠ q := by
        rw [he]
        exact Ne.symm h
      have hb : (e.1 == q) = false := beq_false_of_ne heq
      have hpq : (p == q) = false := beq_false_of_ne (Ne.symm h)
      simpa [List.filter_cons, he, List.find?, hb, hpq] using ih
    · by_cases heq : e.1 = q
      · simp [List.filter_cons, he, heq, List.find?, h]
      · have hb : (e.1 == q) = false := beq_false_of_ne heq
        simpa [List.filter_cons, he, List.find?, hb] using ih

theorem fsGet_fsWrite_self (fs : Fs) (p c : String) :
    fsGet (fsWrite fs p c) p = some c := by
  simp [fsGet, fsWrite, find_setEntry_self]

theorem fsGet_fsWrite_ne (fs : Fs) (p c q : String) (h : q ≠ p) :
    fsGet (fsWrite fs p c) q = fsGet fs q := by
  simp [fsGet, fsWrite, find_setEntry_ne _ _ _ _ h]

theorem fsGet_fsRemove_self (fs : Fs) (p : String) :
    fsGet (fsRemove fs p) p = none := by
  simp [fsGet, fsRemove, find_filterOut_self]

theorem fsGet_fsRemove_ne (fs : Fs) (p q : String) (h : q ≠ p) :
    fsGet (fsRemove fs p) q = fsGet fs q := by
  simp [fsGet, fsRemove, find_filterOut_ne _ _ _ h]

theorem fsCopy_of_get (fs : Fs) (src dst c : String) (h : fsGet fs src = some c) :
    fsCopy fs src dst = ⟨setEntry fs.files dst c, fs.log ++ [FsOp.copy src dst]⟩ := by
  simp [fsCopy, h]

theorem fsGet_mk_setEntry_self (files : List (String × String)) (log : List FsOp)
    (p c : String) : fsGet ⟨setEntry files p c, log⟩ p = some c := by
  simp [fsGet, find_setEntry_self]

theorem fsGet_mk_setEntry_ne (files : List (String × String)) (log : List FsOp)
    (p c q : String) (h : q ≠ p) :
    fsGet ⟨setEntry files p c, log⟩ q = fsGet ⟨files, log⟩ q := by
  simp [fsGet, find_setEntry_ne _ _ _ _ h]

theorem string_ne_append_backup (p : String) : p ≠ p ++ ".backup" := by
  intro h
  have hlen := congrArg String.length h
  rw [String.length_append] at hlen
  have : (".backup" : String).length = 7 := by decide
  omega

/-! ## Claims about the Decorator Config Array Editor -/

theorem mergeLoop_skips_present (existingModules : List String)
    (candidates : List (String × String)) (acc : List String)
    (h : ∀ cand ∈ candidates, existingModules.contains cand.1 = true) :
    candidates.foldl
      (fun allElements cand =>
        if existingModules.contains cand.1 then allElements else allElements ++ [cand.2])
      acc = acc := by
  induction candidates generalizing acc with
  | nil => rfl
  | cons cand rest ih =>
    have hc := h cand (List.mem_cons_self _ _)
    simp only [List.foldl_cons, hc, if_true]
    exact ih acc (fun c hm => h c (List.mem_cons_of_mem _ hm))

theorem mergeLoop_appends_absent (existingModules : List String)
    (candidates : List (String × String)) (acc : List String)
    (h : ∀ cand ∈ candidates, existingModules.contains cand.1 = false) :
    candidates.foldl
      (fun allElements cand =>
        if existingModules.contains cand.1 then allElements else allElements ++ [cand.2])
      acc = acc ++ candidates.map Prod.snd := by
  induction candidates generalizing acc with
  | nil => simp
  | cons cand rest ih =>
    have hc := h cand (List.mem_cons_self _ _)
    simp only [List.foldl_cons, hc, if_false, Bool.false_eq_true, List.map_cons]
    rw [ih (acc ++ [cand.2]) (fun c hm => h c (List.mem_cons_of_mem _ hm))]
    simp

/-- C1: merging candidate entries whose leading identifiers are all
already present among the leading identifiers of the existing decorator
`imports` entries leaves the element list unchanged: nothing is
appended and no existing entry is replaced, regardless of the
candidates' call-argument texts. -/
theorem claim1_leading_identifier_collision_keeps_array
    (existing : List String) (candidates : List (String × String))
    (hlead : ∀ cand ∈ candidates, leadingIdent cand.2 = some cand.1)
    (hpresent : ∀ cand ∈ candidates, cand.1 ∈ getExistingModuleNames existing) :
    mergeModuleElements existing candidates = existing := by
  unfold mergeModuleElements
  exact mergeLoop_skips_present _ _ _
    (fun cand hm => List.elem_eq_true_of_mem (hpresent cand hm))

/-- Witness for C1 at the spec example: the existing entry
`ConfigModule.forRoot({ isGlobal: true })` makes the differently
configured candidate `ConfigModule.forRoot({ isGlobal: false })` a
no-op. -/
theorem claim1_witness :
    mergeModuleElements ["ConfigModule.forRoot(\x7b isGlobal: true \x7d)"]
      [("ConfigModule", "ConfigModule.forRoot(\x7b isGlobal: false \x7d)")] =
      ["ConfigModule.forRoot(\x7b isGlobal: true \x7d)"] :=
  claim1_leading_identifier_collision_keeps_array _ _
    (by decide) (by decide)

/-- C5: merging candidate entries none of whose module names collide
with an existing leading identifier appends exactly their texts, in
candidate order, after the existing elements, which keep their order. -/
theorem claim5_order_preservation
    (existing : List String) (candidates : List (String × String))
    (habsent : ∀ cand ∈ candidates, cand.1 ∉ getExistingModuleNames existing) :
    mergeModuleElements existing candidates = existing ++ candidates.map Prod.snd := by
  unfold mergeModuleElements
  refine mergeLoop_appends_absent _ _ _ (fun cand hm => ?_)
  rw [Bool.eq_false_iff]
  intro hc
  exact habsent cand hm (List.mem_of_elem_eq_true hc)

/-- Witness for C5: merging the generator's own candidate list (no
config) into an array holding only `MyModule` appends
`ConfigModule.forRoot(...)`, `AuthModule`, `UsersModule` after it, in
that order. -/
theorem claim5_witness :
    mergeModuleElements ["MyModule"] (moduleCandidates none) =
      ["MyModule"] ++ (moduleCandidates none).map Prod.snd :=
  claim5_order_preservation _ _ (by decide)

/-! ## Claims about the Import Section Editor -/

theorem filter_not_contains_eq_nil (names bound : List String)
    (h : ∀ n ∈ names, n ∈ bound) :
    names.filter (fun n => !(bound.contains n)) = [] := by
  rw [List.filter_eq_nil_iff]
  intro a ha
  simp [h a ha]

theorem mem_bound_after_merge (base names : List String) (n : String) (hn : n ∈ names) :
    n ∈ base ++ names.filter (fun m => !(base.contains m)) := by
  by_cases hb : n ∈ base
  · exact List.mem_append_left _ hb
  · refine List.mem_append_right _ ?_
    refine List.mem_filter.mpr ⟨hn, ?_⟩
    rw [Bool.not_eq_true']
    rw [Bool.eq_false_iff]
    intro hc
    exact hb (List.mem_of_elem_eq_true hc)

/-- C6: the import editor is idempotent — running `addImport` a second
time with the same module path and names changes nothing, whether the
first run extended an existing declaration or appended a new one. -/
theorem claim6_addImport_idempotent (imports : List ImportDecl)
    (modulePath : String) (names : List String) :
    addImport (addImport imports modulePath names) modulePath names =
      addImport imports modulePath names := by
  induction imports with
  | nil =>
    simp only [addImport, beq_self_eq_true, if_true]
    rw [filter_not_contains_eq_nil names names (fun n hn => hn)]
    simp
  | cons d rest ih =>
    by_cases hspec : d.moduleSpecifier = modulePath
    · simp only [addImport, hspec, beq_self_eq_true, if_true]
      by_cases hmiss :
          (names.filter (fun n => !(d.namedImports.contains n))).length > 0
      · simp only [hmiss, if_true]
        simp only [addImport, beq_self_eq_true, if_true]
        rw [filter_not_contains_eq_nil names
          (d.namedImports ++ names.filter (fun m => !(d.namedImports.contains m)))
          (fun n hn => mem_bound_after_merge _ _ _ hn)]
        simp
      · simp only [hmiss, if_false]
        simp only [addImport, hspec, beq_self_eq_true, if_true, hmiss, if_false]
    · have hb : (d.moduleSpecifier == modulePath) = false := beq_false_of_ne hspec
      simp only [addImport, hb, Bool.false_eq_true, if_false, ih]

/-! ## Claims about backup/rollback of the AST updaters -/

/-- C2: when the mutation pipeline throws after the backup copy is taken
and before the mutated file is saved, both updaters leave the target
file byte-identical to its prior content, report the rethrown error, and
delete the backup sidecar they copied back from. -/
theorem claim2_rollback_restores_content (fs : Fs) (p content : String)
    (mutate : String → Option String)
    (hex : fsGet fs p = some content) (hmut : mutate content = none) :
    fsGet (AppModuleUpdater.update fs p mutate).1 p = some content ∧
    fsGet (AppModuleUpdater.update fs p mutate).1 (p ++ ".backup") = none ∧
    (AppModuleUpdater.update fs p mutate).2.isSome = true ∧
    fsGet (MainTsUpdater.update fs p mutate).1 p = some content ∧
    fsGet (MainTsUpdater.update fs p mutate).1 (p ++ ".backup") = none := by
  have hne : p ≠ p ++ ".backup" := string_ne_append_backup p
  have happ :
      AppModuleUpdater.update fs p mutate =
        (restoreBackup (fsCopy fs p (p ++ ".backup")) p (p ++ ".backup"),
         some "mutation failed") := by
    simp [AppModuleUpdater.update, hex, hmut]
  have hfs1 : fsCopy fs p (p ++ ".backup") =
      ⟨setEntry fs.files (p ++ ".backup") content, fs.log ++ [FsOp.copy p (p ++ ".backup")]⟩ :=
    fsCopy_of_get _ _ _ _ hex
  have hbak : fsGet (fsCopy fs p (p ++ ".backup")) (p ++ ".backup") = some content := by
    rw [hfs1]
    exact fsGet_mk_setEntry_self _ _ _ _
  have hrestore :
      restoreBackup (fsCopy fs p (p ++ ".backup")) p (p ++ ".backup") =
        fsRemove (fsCopy (fsCopy fs p (p ++ ".backup")) (p ++ ".backup") p)
          (p ++ ".backup") := by
    simp [restoreBackup, fsPathExists, hbak]
  have hcopy2 : fsCopy (fsCopy fs p (p ++ ".backup")) (p ++ ".backup") p =
      ⟨setEntry (fsCopy fs p (p ++ ".backup")).files p content,
       (fsCopy fs p (p ++ ".backup")).log ++ [FsOp.copy (p ++ ".backup") p]⟩ :=
    fsCopy_of_get _ _ _ _ hbak
  have hfinal_p :
      fsGet (restoreBackup (fsCopy fs p (p ++ ".backup")) p (p ++ ".backup")) p =
        some content := by
    rw [hrestore, fsGet_fsRemove_ne _ _ _ hne, hcopy2]
    exact fsGet_mk_setEntry_self _ _ _ _
  have hfinal_b :
      fsGet (restoreBackup (fsCopy fs p (p ++ ".backup")) p (p ++ ".backup"))
        (p ++ ".backup") = none := by
    rw [hrestore]
    exact fsGet_fsRemove_self _ _
  have hmain : MainTsUpdater.update fs p mutate = AppModuleUpdater.update fs p mutate := by
    simp [MainTsUpdater.update, fsPathExists, hex]
  refine ⟨?_, ?_, ?_, ?_, ?_⟩
  · rw [happ]
    exact hfinal_p
  · rw [happ]
    exact hfinal_b
  · rw [happ]
    rfl
  · rw [hmain, happ]
    exact hfinal_p
  · rw [hmain, happ]
    exact hfinal_b

/-- Witness for C2 on a concrete one-file project whose mutation step
throws. -/
theorem claim2_witness :
    fsGet (AppModuleUpdater.update ⟨[("src/app.module.ts", "original text")], []⟩
        "src/app.module.ts" (fun _ => none)).1 "src/app.module.ts" = some "original text" ∧
    fsGet (AppModuleUpdater.update ⟨[("src/app.module.ts", "original text")], []⟩
        "src/app.module.ts" (fun _ => none)).1 "src/app.module.ts.backup" = none :=
  ⟨(claim2_rollback_restores_content ⟨[("src/app.module.ts", "original text")], []⟩
      "src/app.module.ts" "original text" (fun _ => none) (by decide) rfl).1,
   (claim2_rollback_restores_content ⟨[("src/app.module.ts", "original text")], []⟩
      "src/app.module.ts" "original text" (fun _ => none) (by decide) rfl).2.1⟩

/-! ## Claims about the Conflict-Checked Writer -/

/-- C3: writing to an existing path with `overwrite = false` throws the
file-exists error and performs no effect at all: the filesystem state
(contents and operation log) and the writer state (written list, backup
map) are returned exactly as they were. -/
theorem claim3_conflict_never_writes (fs : Fs) (st : FileWriterState)
    (filePath content : String) (backup : Bool)
    (hex : fsPathExists fs filePath = true) :
    FileWriter.writeFile fs st filePath content ⟨false, backup⟩ =
      (fs, st, some ("File already exists: " ++ filePath)) := by
  simp [FileWriter.writeFile, hex]

/-- Witness for C3 on a concrete filesystem holding the target file. -/
theorem claim3_witness :
    FileWriter.writeFile ⟨[(".env", "SECRET=1")], []⟩ ⟨["other.ts"], []⟩
        ".env" "SECRET=2" ⟨false, true⟩ =
      (⟨[(".env", "SECRET=1")], []⟩, ⟨["other.ts"], []⟩,
       some ("File already exists: " ++ ".env")) :=
  claim3_conflict_never_writes ⟨[(".env", "SECRET=1")], []⟩ ⟨["other.ts"], []⟩
    ".env" "SECRET=2" true (by decide)

/-- C10: overwriting an existing path with `backup = false` records the
path in the written list with no backup entry, so a later `rollback`
deletes the file outright instead of restoring its prior content. -/
theorem claim10_rollback_deletes_unbacked_overwrite (fs : Fs)
    (filePath content prior : String)
    (hex : fsGet fs filePath = some prior) :
    (FileWriter.writeFile fs FileWriter.initial filePath content ⟨true, false⟩).2.2 = none ∧
    (FileWriter.writeFile fs FileWriter.initial filePath content ⟨true, false⟩).2.1 =
      ⟨[filePath], []⟩ ∧
    fsGet (FileWriter.rollback
        (FileWriter.writeFile fs FileWriter.initial filePath content ⟨true, false⟩).1
        (FileWriter.writeFile fs FileWriter.initial filePath content ⟨true, false⟩).2.1).1
      filePath = none := by
  have hb : fsPathExists fs filePath = true := by
    simp [fsPathExists, hex]
  have hw : FileWriter.writeFile fs FileWriter.initial filePath content ⟨true, false⟩ =
      (fsWrite fs filePath content, ⟨[filePath], []⟩, none) := by
    simp [FileWriter.writeFile, FileWriter.initial, hb]
  refine ⟨by rw [hw], by rw [hw], ?_⟩
  rw [hw]
  have hexists : fsPathExists (fsWrite fs filePath content) filePath = true := by
    simp [fsPathExists, fsGet_fsWrite_self]
  simp only [FileWriter.rollback, List.foldl_nil, List.foldl_cons,
    removeWrittenEntry, List.any_nil, Bool.not_false, hexists, Bool.and_self, if_true]
  exact fsGet_fsRemove_self _ _

/-- Witness for C10: the pre-existing file content is destroyed, not
restored, by rollback after an unbacked overwrite. -/
theorem claim10_witness :
    fsGet (FileWriter.rollback
        (FileWriter.writeFile ⟨[("keep.ts", "precious original")], []⟩ FileWriter.initial
          "keep.ts" "generated" ⟨true, false⟩).1
        (FileWriter.writeFile ⟨[("keep.ts", "precious original")], []⟩ FileWriter.initial
          "keep.ts" "generated" ⟨true, false⟩).2.1).1
      "keep.ts" = none :=
  (claim10_rollback_deletes_unbacked_overwrite ⟨[("keep.ts", "precious original")], []⟩
    "keep.ts" "generated" "precious original" (by decide)).2.2

/-! ## Claim about `Generator.generate` -/

theorem generateGo_never_succeeds (overwrite : Bool) :
    ∀ (plan : List (String × String)) (fs : Fs) (st : FileWriterState),
      (generateGo overwrite fs st plan).2.success = false ∧
      (generateGo overwrite fs st plan).2.filesCreated = [] ∧
      (generateGo overwrite fs st plan).2.filesSkipped = [] := by
  intro plan
  induction plan with
  | nil =>
    intro fs st
    simp [generateGo, fileWriterGetSkippedFiles]
  | cons spec rest ih =>
    intro fs st
    obtain ⟨outputPath, content⟩ := spec
    simp only [generateGo]
    rcases hw : FileWriter.writeFile fs st outputPath content ⟨overwrite, true⟩ with
      ⟨fs1, st1, err⟩
    cases err with
    | none => exact ih fs1 st1
    | some msg => simp

/-- C4 (refutation): `Generator.generate` can never produce a
`success := true` result.  The `FileWriter` class defines no skipped
list and no `getSkippedFiles` method, yet `generator.ts` line 67 calls
`this.fileWriter.getSkippedFiles()` after the write loop; the resulting
`TypeError` is caught by the surrounding handler, which rolls everything
back and reports failure with empty file lists — on every input,
including runs in which every planned file was written without error. -/
theorem claim4_generate_never_reports_success (fs : Fs)
    (plan : List (String × String)) (overwrite : Bool) :
    (Generator.generate fs plan overwrite).2.success = false ∧
    (Generator.generate fs plan overwrite).2.filesCreated = [] ∧
    (Generator.generate fs plan overwrite).2.filesSkipped = [] :=
  generateGo_never_succeeds overwrite plan fs FileWriter.initial

/-- Companion evaluation for C4 at a concrete failing input: a
single-file plan on an empty project directory, where the write itself
succeeds, still yields `success := false`, an empty created list, the
TypeError message, and the written file rolled back off the disk. -/
theorem claim4_failing_input_evaluated :
    Generator.generate ⟨[], []⟩ [("src/auth/auth.module.ts", "content")] false =
      (⟨[], [FsOp.write "src/auth/auth.module.ts" "content",
             FsOp.remove "src/auth/auth.module.ts"]⟩,
       ⟨[], [], false, some "this.fileWriter.getSkippedFiles is not a function"⟩) := by
  decide

/-! ## Claims about the Bootstrap Body Injector -/

theorem findIdx_of_all_false (p : String → Bool) :
    ∀ (l : List String), (∀ s ∈ l, p s = false) → l.findIdx p = l.length := by
  intro l
  induction l with
  | nil => intro _; rfl
  | cons a rest ih =>
    intro h
    have ha := h a (List.mem_cons_self _ _)
    rw [List.findIdx_cons, ha]
    simp [ih (fun s hs => h s (List.mem_cons_of_mem _ hs))]

theorem findIdx_append_anchor (p : String → Bool) (pre post : List String)
    (anchor : String) (hpre : ∀ s ∈ pre, p s = false) (hanchor : p anchor = true) :
    (pre ++ anchor :: post).findIdx p = pre.length := by
  induction pre with
  | nil => simp [List.findIdx_cons, hanchor]
  | cons a rest ih =>
    have ha := hpre a (List.mem_cons_self _ _)
    simp only [List.cons_append, List.findIdx_cons, ha, cond_false]
    rw [ih (fun s hs => hpre s (List.mem_cons_of_mem _ hs))]
    simp

/-- C7: with no idempotency marker in the body text, the injector puts
the fixed block immediately before the first statement whose text
matches the listen anchor, and appends it at the end of the body when no
statement matches. -/
theorem claim7_anchor_insertion_position :
    (∀ (bodyText : String) (pre post : List String) (anchor : String),
      (stringIncludes bodyText "useGlobalGuards" ||
        stringIncludes bodyText "JwtAuthGuard") = false →
      (∀ s ∈ pre, isListenStatement s = false) →
      isListenStatement anchor = true →
      addGlobalGuardsAndPipes bodyText (pre ++ anchor :: post) =
        pre ++ codeToInsert :: anchor :: post) ∧
    (∀ (bodyText : String) (statements : List String),
      (stringIncludes bodyText "useGlobalGuards" ||
        stringIncludes bodyText "JwtAuthGuard") = false →
      (∀ s ∈ statements, isListenStatement s = false) →
      addGlobalGuardsAndPipes bodyText statements = statements ++ [codeToInsert]) := by
  constructor
  · intro bodyText pre post anchor hmarker hpre hanchor
    rw [addGlobalGuardsAndPipes, hmarker]
    simp only [Bool.false_eq_true, if_false]
    rw [insertStatements, listenInsertIndex,
      findIdx_append_anchor _ _ _ _ hpre hanchor,
      List.take_left, List.drop_left]
    simp
  · intro bodyText statements hmarker hall
    rw [addGlobalGuardsAndPipes, hmarker]
    simp only [Bool.false_eq_true, if_false]
    rw [insertStatements, listenInsertIndex, findIdx_of_all_false _ _ hall,
      List.take_length, List.drop_length]
    simp

/-- Witness for C7 at a concrete bootstrap body `[S1, S2-with-listen,
S3]` and at a body without any listen call. -/
theorem claim7_witness :
    addGlobalGuardsAndPipes "const app = await NestFactory.create(AppModule);"
        ["const app = await NestFactory.create(AppModule);",
         "await app.listen(3000);",
         "console.log(done);"] =
      ["const app = await NestFactory.create(AppModule);",
       codeToInsert,
       "await app.listen(3000);",
       "console.log(done);"] ∧
    addGlobalGuardsAndPipes "const app = await NestFactory.create(AppModule);"
        ["const app = await NestFactory.create(AppModule);"] =
      ["const app = await NestFactory.create(AppModule);", codeToInsert] := by
  constructor
  · exact claim7_anchor_insertion_position.1
      "const app = await NestFactory.create(AppModule);"
      ["const app = await NestFactory.create(AppModule);"]
      ["console.log(done);"]
      "await app.listen(3000);"
      (by decide) (by decide) (by decide)
  · exact claim7_anchor_insertion_position.2
      "const app = await NestFactory.create(AppModule);"
      ["const app = await NestFactory.create(AppModule);"]
      (by decide) (by decide)

set_option maxRecDepth 16384 in
/-- C8: the re-run guard of the injector is purely textual: whenever the
body source text contains `useGlobalGuards` or `JwtAuthGuard` the
statement list is returned unchanged, whatever its structure; and the
injected block itself contains both markers, so a body holding it is
never injected into again. -/
theorem claim8_textual_idempotency_guard :
    (∀ (bodyText : String) (statements : List String),
      (stringIncludes bodyText "useGlobalGuards" ||
        stringIncludes bodyText "JwtAuthGuard") = true →
      addGlobalGuardsAndPipes bodyText statements = statements) ∧
    stringIncludes codeToInsert "useGlobalGuards" = true ∧
    stringIncludes codeToInsert "JwtAuthGuard" = true := by
  refine ⟨?_, by decide, by decide⟩
  intro bodyText statements hmarker
  rw [addGlobalGuardsAndPipes, hmarker]
  simp

/-- Witness for C8: a body text that contains the marker only inside a
user comment still suppresses injection, for a statement list that does
not contain the block at all. -/
theorem claim8_witness :
    addGlobalGuardsAndPipes "// configured JwtAuthGuard manually elsewhere"
        ["await app.listen(3000);"] = ["await app.listen(3000);"] :=
  claim8_textual_idempotency_guard.1
    "// configured JwtAuthGuard manually elsewhere"
    ["await app.listen(3000);"] (by decide)

/-! ## Claim about the GUI pipeline -/

/-- C9: after successful generation and app.module.ts update, a throw in
the main.ts step — and likewise in the dependency-installation step — is
downgraded to its fixed warning: the pipeline still returns
`success := true` with the generation report, an empty error list, and
the filesystem exactly as the steps left it (the orchestrator performs
no rollback of the generated files or of the module-file mutation). -/
theorem claim9_warnings_do_not_abort :
    (∀ (fs fs1 fs2 fs3 fs4 : Fs) (r : GenerationResult) (msg : String)
       (genStep : Fs → Fs × GenerationResult)
       (appModuleStep mainTsStep packageStep installStep : Fs → Fs × Option String),
      genStep fs = (fs1, r) → r.success = true →
      appModuleStep fs1 = (fs2, none) →
      mainTsStep fs2 = (fs3, some msg) →
      packageStep fs3 = (fs4, none) →
      GuiOrchestrator.generate fs genStep appModuleStep mainTsStep packageStep
          installStep false =
        (fs4, ⟨true, r.filesCreated, r.filesSkipped, [], [mainTsWarning]⟩)) ∧
    (∀ (fs fs1 fs2 fs3 fs4 fs5 : Fs) (r : GenerationResult) (msg : String)
       (genStep : Fs → Fs × GenerationResult)
       (appModuleStep mainTsStep packageStep installStep : Fs → Fs × Option String),
      genStep fs = (fs1, r) → r.success = true →
      appModuleStep fs1 = (fs2, none) →
      mainTsStep fs2 = (fs3, none) →
      packageStep fs3 = (fs4, none) →
      installStep fs4 = (fs5, some msg) →
      GuiOrchestrator.generate fs genStep appModuleStep mainTsStep packageStep
          installStep true =
        (fs5, ⟨true, r.filesCreated, r.filesSkipped, [], [installWarning]⟩)) := by
  constructor
  · intro fs fs1 fs2 fs3 fs4 r msg genStep appModuleStep mainTsStep packageStep
      installStep hgen hsucc happ hmain hpkg
    simp [GuiOrchestrator.generate, hgen, hsucc, happ, hmain, hpkg]
  · intro fs fs1 fs2 fs3 fs4 fs5 r msg genStep appModuleStep mainTsStep packageStep
      installStep hgen hsucc happ hmain hpkg hinst
    simp [GuiOrchestrator.generate, hgen, hsucc, happ, hmain, hpkg, hinst]

/-- Witness for C9: a concrete pipeline whose main.ts step throws still
reports overall success with the warning, and the file generated in
step 1 is still present afterwards. -/
theorem claim9_witness :
    GuiOrchestrator.generate ⟨[], []⟩
        (fun f => (fsWrite f "src/auth/auth.module.ts" "auth module",
          ⟨["src/auth/auth.module.ts"], [], true, none⟩))
        (fun f => (fsWrite f "src/app.module.ts" "updated module", none))
        (fun f => (f, some "bootstrap function not found in main.ts"))
        (fun f => (f, none))
        (fun f => (f, none))
        false =
      (fsWrite (fsWrite ⟨[], []⟩ "src/auth/auth.module.ts" "auth module")
         "src/app.module.ts" "updated module",
       ⟨true, ["src/auth/auth.module.ts"], [], [], [mainTsWarning]⟩) :=
  claim9_warnings_do_not_abort.1 _ _ _ _ _
    ⟨["src/auth/auth.module.ts"], [], true, none⟩
    "bootstrap function not found in main.ts"
    _ _ _ _ _ rfl rfl rfl rfl rfl
